import Mathlib

/-!
Verification of the plural-rule engine in `src/Engine/LanguagePlurality.cpp`
(OpenXcom). The C++ class hierarchy (an abstract `LanguagePlurality` base
with seven concrete subclasses) is embedded as a closed inductive type of
variants, with `getSuffix` translated branch-for-branch from each
subclass's implementation. The lazily populated static factory map
`s_factoryFunctions` is embedded by explicit state passing: `create` takes
the current table and returns both the chosen variant and the table after
the call.
-/

namespace OpenXcom

/-- The seven concrete subclasses of `LanguagePlurality`, as a closed set
of variants. -/
inductive LanguagePlurality where
  | OneSingular
  | ZeroOneSingular
  | NoSingular
  | CyrillicPlurality
  | CzechPlurality
  | PolishPlurality
  | RomanianPlurality
deriving DecidableEq, Repr

/-- Virtual dispatch of `getSuffix(unsigned n)`: each arm is the body of
the corresponding subclass's override in `LanguagePlurality.cpp`.
The C++ parameter is `unsigned`; the conditions only compare and take
remainders, so it is embedded as `Nat`. -/
def LanguagePlurality.getSuffix : LanguagePlurality → Nat → String
  | .OneSingular, n =>
      if n = 1 then "_one" else "_other"
  | .ZeroOneSingular, n =>
      if n = 0 ∨ n = 1 then "_one" else "_other"
  | .NoSingular, _ => "_other"
  | .CyrillicPlurality, n =>
      if n % 10 = 1 ∧ n % 100 ≠ 11 then "_one"
      else if (2 ≤ n % 10 ∧ n % 10 ≤ 4) ∧ ¬(12 ≤ n % 100 ∧ n % 100 ≤ 14) then "_few"
      else if n % 10 = 0 ∨ (5 ≤ n % 10 ∧ n % 10 ≤ 9) ∨ (11 ≤ n % 100 ∧ n % 100 ≤ 14) then "_many"
      else "_other"
  | .CzechPlurality, n =>
      if n = 1 then "_one"
      else if 2 ≤ n ∧ n ≤ 4 then "_few"
      else "_other"
  | .PolishPlurality, n =>
      if n = 1 then "_one"
      else if (2 ≤ n % 10 ∧ n % 10 ≤ 4) ∧ ¬(12 ≤ n % 100 ∧ n % 100 ≤ 14) then "_few"
      else if (0 ≤ n % 10 ∧ n % 10 ≤ 1) ∨ (5 ≤ n % 10 ∧ n % 10 ≤ 9) ∨ (12 ≤ n % 100 ∧ n % 100 ≤ 14) then "_many"
      else "_other"
  | .RomanianPlurality, n =>
      if n = 1 then "_one"
      else if n = 0 ∨ (1 ≤ n % 100 ∧ n % 100 ≤ 19) then "_few"
      else "_other"

/-- The closed set of plural categories named by the spec; each is the
meaning of one of the four suffix strings a `getSuffix` override can
return. -/
inductive Category where
  | one
  | few
  | many
  | other
deriving DecidableEq, Repr

/-- Decoding of the external suffix-string encoding back into the
category it denotes (`"_one" ↦ one`, `"_few" ↦ few`, `"_many" ↦ many`,
`"_other" ↦ other`). -/
def categoryOfSuffix (s : String) : Category :=
  if s = "_one" then .one
  else if s = "_few" then .few
  else if s = "_many" then .many
  else .other

/-- The spec's `classify`: the category denoted by the suffix the rule
returns for count `n`. -/
def LanguagePlurality.classify (v : LanguagePlurality) (n : Nat) : Category :=
  categoryOfSuffix (v.getSuffix n)

/-- The eight entries inserted into `s_factoryFunctions` on the first
call to `LanguagePlurality::create`, in insertion order. Each factory
function pointer `&X::create` is embedded as the variant it constructs. -/
def defaultFactoryFunctions : List (String × LanguagePlurality) :=
  [ ("fr",    .ZeroOneSingular),
    ("hu-HU", .NoSingular),
    ("tr-TR", .NoSingular),
    ("cs-CZ", .CzechPlurality),
    ("pl-PL", .PolishPlurality),
    ("ro",    .RomanianPlurality),
    ("ru",    .CyrillicPlurality),
    ("uk",    .CyrillicPlurality) ]

/-- `LanguagePlurality::create(language)` with the static map
`s_factoryFunctions` passed explicitly: if the table is empty it is
populated with the eight built-in entries; the language is looked up by
exact string match; on a miss the default creator `&OneSingular::create`
is used. Returns the constructed variant together with the table as it
stands after the call. -/
def LanguagePlurality.create (s_factoryFunctions : List (String × LanguagePlurality))
    (language : String) : LanguagePlurality × List (String × LanguagePlurality) :=
  let table := if s_factoryFunctions.isEmpty then defaultFactoryFunctions
               else s_factoryFunctions
  let creator := match table.find? (fun p => p.1 == language) with
    | some found => found.2
    | none => LanguagePlurality.OneSingular
  (creator, table)

/-- The spec's `resolve(localeId)`: the variant `create` constructs, with
the table starting from its initial empty state. -/
def resolve (language : String) : LanguagePlurality :=
  (LanguagePlurality.create [] language).1

end OpenXcom

namespace OpenXcom

/-- Helper: a locale string absent from the eight built-in keys makes
every lookup comparison in the populated table fail, so `create` falls
through to the default creator `&OneSingular::create`. -/
theorem resolve_eq_oneSingular_of_not_builtin (x : String)
    (hx : x ∉ ["fr", "hu-HU", "tr-TR", "cs-CZ", "pl-PL", "ro", "ru", "uk"]) :
    resolve x = LanguagePlurality.OneSingular := by
  simp only [List.mem_cons, List.not_mem_nil, or_false, not_or] at hx
  obtain ⟨h1, h2, h3, h4, h5, h6, h7, h8⟩ := hx
  have e : ∀ s : String, ¬x = s → (s == x) = false :=
    fun s h => beq_eq_false_iff_ne.mpr (fun he => h he.symm)
  simp [resolve, LanguagePlurality.create, defaultFactoryFunctions, List.find?,
    e _ h1, e _ h2, e _ h3, e _ h4, e _ h5, e _ h6, e _ h7, e _ h8]

/-- C1: for every locale identifier `x` outside the eight built-in keys
(the empty string included), `resolve x` is a total function returning a
rule behaviorally identical to `OneSingular`: its classification of any
count `n` agrees with `OneSingular` and is `one` exactly when `n = 1`,
`other` otherwise. -/
theorem resolve_fallback_one_singular (x : String)
    (hx : x ∉ ["fr", "hu-HU", "tr-TR", "cs-CZ", "pl-PL", "ro", "ru", "uk"]) (n : Nat) :
    (resolve x).classify n = LanguagePlurality.OneSingular.classify n ∧
    (resolve x).classify n = if n = 1 then Category.one else Category.other := by
  rw [resolve_eq_oneSingular_of_not_builtin x hx]
  refine ⟨rfl, ?_⟩
  simp only [LanguagePlurality.classify, LanguagePlurality.getSuffix]
  split_ifs <;> decide

/-- Witness for C1 at the empty string and count 21. -/
theorem resolve_fallback_one_singular_witness :
    (("" : String) ∉ ["fr", "hu-HU", "tr-TR", "cs-CZ", "pl-PL", "ro", "ru", "uk"]) ∧
    ((resolve "").classify 21 = LanguagePlurality.OneSingular.classify 21 ∧
     (resolve "").classify 21 = if 21 = 1 then Category.one else Category.other) :=
  ⟨by decide, resolve_fallback_one_singular "" (by decide) 21⟩

/-- C2: `resolve` maps each built-in locale identifier, by exact
case-sensitive match, to its listed variant; `resolve "ru"` classifies 21
as `one` while `resolve "xx-unknown"` classifies 21 as `other`. -/
theorem resolve_builtin_table :
    resolve "fr" = LanguagePlurality.ZeroOneSingular ∧
    resolve "hu-HU" = LanguagePlurality.NoSingular ∧
    resolve "tr-TR" = LanguagePlurality.NoSingular ∧
    resolve "cs-CZ" = LanguagePlurality.CzechPlurality ∧
    resolve "pl-PL" = LanguagePlurality.PolishPlurality ∧
    resolve "ro" = LanguagePlurality.RomanianPlurality ∧
    resolve "ru" = LanguagePlurality.CyrillicPlurality ∧
    resolve "uk" = LanguagePlurality.CyrillicPlurality ∧
    (resolve "ru").classify 21 = Category.one ∧
    (resolve "xx-unknown").classify 21 = Category.other := by
  decide

/-- C3: `CyrillicPlurality` classifies every count by the ordered tests
`one` (n%10=1 and n%100≠11), then `few` (n%10 in 2..4 and n%100 not in
12..14), then `many` (n%10=0 or n%10 in 5..9 or n%100 in 11..14), then
`other`; in particular 21 is `one`, 1 is `one`, 2 is `few`, 5 is `many`,
11 is `many`, 22 is `few`, 25 is `many`. -/
theorem cyrillic_classify_correct :
    (∀ n : Nat, LanguagePlurality.CyrillicPlurality.classify n =
      if n % 10 = 1 ∧ n % 100 ≠ 11 then Category.one
      else if (2 ≤ n % 10 ∧ n % 10 ≤ 4) ∧ ¬(12 ≤ n % 100 ∧ n % 100 ≤ 14) then Category.few
      else if n % 10 = 0 ∨ (5 ≤ n % 10 ∧ n % 10 ≤ 9) ∨ (11 ≤ n % 100 ∧ n % 100 ≤ 14) then
        Category.many
      else Category.other) ∧
    (LanguagePlurality.CyrillicPlurality.classify 21 = Category.one ∧
     LanguagePlurality.CyrillicPlurality.classify 1 = Category.one ∧
     LanguagePlurality.CyrillicPlurality.classify 2 = Category.few ∧
     LanguagePlurality.CyrillicPlurality.classify 5 = Category.many ∧
     LanguagePlurality.CyrillicPlurality.classify 11 = Category.many ∧
     LanguagePlurality.CyrillicPlurality.classify 22 = Category.few ∧
     LanguagePlurality.CyrillicPlurality.classify 25 = Category.many) := by
  refine ⟨fun n => ?_, by decide⟩
  simp only [LanguagePlurality.classify, LanguagePlurality.getSuffix]
  split_ifs <;> decide

/-- C4: `PolishPlurality` classifies every count by the ordered tests
`one` (n=1), then `few` (n%10 in 2..4 and n%100 not in 12..14), then
`many` (n%10 in 0..1 or n%10 in 5..9 or n%100 in 12..14), then `other`;
in particular 1 is `one`, 2 is `few`, 5 is `many`, 12 is `many`, 22 is
`few`. -/
theorem polish_classify_correct :
    (∀ n : Nat, LanguagePlurality.PolishPlurality.classify n =
      if n = 1 then Category.one
      else if (2 ≤ n % 10 ∧ n % 10 ≤ 4) ∧ ¬(12 ≤ n % 100 ∧ n % 100 ≤ 14) then Category.few
      else if (0 ≤ n % 10 ∧ n % 10 ≤ 1) ∨ (5 ≤ n % 10 ∧ n % 10 ≤ 9) ∨
          (12 ≤ n % 100 ∧ n % 100 ≤ 14) then Category.many
      else Category.other) ∧
    (LanguagePlurality.PolishPlurality.classify 1 = Category.one ∧
     LanguagePlurality.PolishPlurality.classify 2 = Category.few ∧
     LanguagePlurality.PolishPlurality.classify 5 = Category.many ∧
     LanguagePlurality.PolishPlurality.classify 12 = Category.many ∧
     LanguagePlurality.PolishPlurality.classify 22 = Category.few) := by
  refine ⟨fun n => ?_, by decide⟩
  simp only [LanguagePlurality.classify, LanguagePlurality.getSuffix]
  split_ifs <;> decide

/-- C5: `RomanianPlurality` classifies every count by the ordered tests
`one` (n=1), then `few` (n=0 or n%100 in 1..19), then `other`; in
particular 0 is `few`, 1 is `one`, 12 is `few`, 20 is `other`, 101 is
`few`. -/
theorem romanian_classify_correct :
    (∀ n : Nat, LanguagePlurality.RomanianPlurality.classify n =
      if n = 1 then Category.one
      else if n = 0 ∨ (1 ≤ n % 100 ∧ n % 100 ≤ 19) then Category.few
      else Category.other) ∧
    (LanguagePlurality.RomanianPlurality.classify 0 = Category.few ∧
     LanguagePlurality.RomanianPlurality.classify 1 = Category.one ∧
     LanguagePlurality.RomanianPlurality.classify 12 = Category.few ∧
     LanguagePlurality.RomanianPlurality.classify 20 = Category.other ∧
     LanguagePlurality.RomanianPlurality.classify 101 = Category.few) := by
  refine ⟨fun n => ?_, by decide⟩
  simp only [LanguagePlurality.classify, LanguagePlurality.getSuffix]
  split_ifs <;> decide

/-- C6: the three simple rules and the Czech rule classify each count as
listed: `OneSingular` is `one` exactly at 1; `ZeroOneSingular` is `one`
exactly at 0 and 1; `NoSingular` is always `other`; `CzechPlurality` is
`one` at 1, `few` on 2..4, `other` elsewhere. -/
theorem simple_rules_classify_correct (n : Nat) :
    LanguagePlurality.OneSingular.classify n =
      (if n = 1 then Category.one else Category.other) ∧
    LanguagePlurality.ZeroOneSingular.classify n =
      (if n = 0 ∨ n = 1 then Category.one else Category.other) ∧
    LanguagePlurality.NoSingular.classify n = Category.other ∧
    LanguagePlurality.CzechPlurality.classify n =
      (if n = 1 then Category.one
       else if 2 ≤ n ∧ n ≤ 4 then Category.few
       else Category.other) := by
  refine ⟨?_, ?_, rfl, ?_⟩ <;>
    · simp only [LanguagePlurality.classify, LanguagePlurality.getSuffix]
      split_ifs <;> decide

end OpenXcom

namespace OpenXcom

/-- C7: totality — for every variant and every count, `getSuffix` returns
exactly one of the four suffix strings, and `classify` returns the
matching category from the closed set. -/
theorem classify_total (v : LanguagePlurality) (n : Nat) :
    (v.getSuffix n = "_one" ∧ v.classify n = Category.one) ∨
    (v.getSuffix n = "_few" ∧ v.classify n = Category.few) ∨
    (v.getSuffix n = "_many" ∧ v.classify n = Category.many) ∨
    (v.getSuffix n = "_other" ∧ v.classify n = Category.other) := by
  cases v <;>
    simp only [LanguagePlurality.classify, LanguagePlurality.getSuffix] <;>
    first
      | decide
      | (split_ifs <;> decide)

/-- C8: the table is populated only when it is empty (the state before
the first call); the populated table holds exactly the eight built-in
entries; a call starting from the populated table leaves it unchanged and
selects the same variant as a first call would. -/
theorem create_table_populated_once (language : String) :
    (LanguagePlurality.create [] language).2 = defaultFactoryFunctions ∧
    LanguagePlurality.create defaultFactoryFunctions language =
      ((LanguagePlurality.create [] language).1, defaultFactoryFunctions) ∧
    defaultFactoryFunctions.map Prod.fst =
      ["fr", "hu-HU", "tr-TR", "cs-CZ", "pl-PL", "ro", "ru", "uk"] :=
  ⟨rfl, rfl, rfl⟩

/-- C9: the final `other` branch of the Cyrillic and Polish rules is
dead code — for every count these two rules classify into
{one, few, many}, because the three guarding conditions together cover
every residue of n modulo 10 and 100. -/
theorem cyrillic_polish_other_unreachable (n : Nat) :
    LanguagePlurality.CyrillicPlurality.classify n ≠ Category.other ∧
    LanguagePlurality.PolishPlurality.classify n ≠ Category.other := by
  constructor <;>
    · simp only [LanguagePlurality.classify, LanguagePlurality.getSuffix]
      split_ifs <;> try decide
      exfalso; omega

end OpenXcom
